import Mathlib

/- Shallow embedding of src/AmigaCatalog.cpp (pulkomandy/IFFCatalog): the
   reader for Amiga IFF files of form type CTLG. Bytes are modelled as Nat
   values below 256; 32-bit machine integers are Nat, or Int together with an
   explicit two complement reinterpretation wherever the code stores an
   unsigned big-endian field into an int32 variable. Executions whose
   observable behavior is not determined by the source code (reads of
   uninitialized variables or buffers, out-of-bounds accesses, a C string
   scan running past the end of its buffer, an encoding conversion that fills
   its fixed output buffer) are mapped to the explicit outcome indet rather
   than being assigned an arbitrary value. -/

/-- Big-endian 32-bit value of four raw bytes, as produced by reading four
file bytes into an int32 and applying ntohl. -/
def be32 (a b c d : Nat) : Nat := ((a * 256 + b) * 256 + c) * 256 + d

/-- Reinterpret an unsigned 32-bit value as a signed int32 (two complement),
as happens when an ntohl result is kept in an int32 variable such as
dataSize, chunkSize or strLen. -/
def toInt32 (n : Nat) : Int :=
  if n % 4294967296 < 2147483648 then ((n % 4294967296 : Nat) : Int)
  else ((n % 4294967296 : Nat) : Int) - 4294967296

/-- The four-character codes tested by AmigaCatalog::ReadFromFile. -/
def tagFORM : Nat := be32 70 79 82 77

def tagCTLG : Nat := be32 67 84 76 71

def tagFVER : Nat := be32 70 86 69 82

def tagLANG : Nat := be32 76 65 78 71

def tagSTRS : Nat := be32 83 84 82 83

def tagCSET : Nat := be32 67 83 69 84

/-- The fields of an AmigaCatalog object that ReadFromFile / WriteToFile
touch: fSignature, fLanguageName, the HashMapCatalog string entries (kept in
decode order; the external map applies last-write-wins on lookup), fPath and
fFingerprint. Text values are byte lists (the bytes a BString holds). -/
structure CatalogData where
  fSignature : List Nat
  fLanguageName : List Nat
  entries : List (Nat × List Nat)
  fPath : String
  fFingerprint : Nat
deriving DecidableEq

/-- A catalog object as freshly constructed, before any decode. -/
def cInit0 : CatalogData := ⟨[], [], [], "", 0⟩

/-- A byte stream with a read position: the BFile being read sequentially.
Reads return at most the remaining bytes and advance by the count actually
read, exactly like BFile::Read; the code never checks that count. -/
structure ByteStream where
  data : List Nat
  pos : Nat
deriving DecidableEq

/-- Read four bytes into an int32 and apply ntohl. When fewer than four
bytes remain the int32 keeps (partly) uninitialized contents, so the value
is not determined: none. -/
def readU32 (s : ByteStream) : Option (Nat × ByteStream) :=
  match (s.data.drop s.pos).take 4 with
  | [a, b, c, d] => some (be32 a b c d, ⟨s.data, s.pos + 4⟩)
  | _ => none

/-- Read up to n bytes; the first component is what was actually read (the
valid prefix of the destination buffer), the stream advances by that many
bytes. -/
def readBytes (s : ByteStream) (n : Nat) : List Nat × ByteStream :=
  ((s.data.drop s.pos).take n, ⟨s.data, s.pos + ((s.data.drop s.pos).take n).length⟩)

/-- Status values: B_OK, B_BAD_DATA, B_NOT_SUPPORTED, a file-open failure,
plus the three named decode errors of the spec taxonomy, included so that
statements about them can be written; the code itself only ever produces
the first four. -/
inductive Status where
  | ok
  | badData
  | notSupported
  | entryNotFound
  | truncated
  | malformedContainer
  | unsupportedFormType
deriving DecidableEq

/-- Result of one of the two decode loops: a finished catalog state, or an
execution whose behavior the source does not determine. -/
inductive LRes where
  | fin (c : CatalogData)
  | indet
deriving DecidableEq

/-- Result of a whole decode attempt: a status with the resulting object
state, or an undetermined execution. -/
inductive DOut where
  | done (st : Status) (c : CatalogData)
  | indet
deriving DecidableEq

/-- Rounding of strLen up to the next multiple of four, lines 201-204:
if (strLen & 3) { strLen &= ~3; strLen += 4; }. -/
def align4 (n : Nat) : Nat := if n % 4 = 0 then n else n - n % 4 + 4

/-- A four-byte big-endian read from the STRS chunk buffer at a byte offset.
none when the four bytes are not all determinate: BMemoryIO reads fewer
bytes near the end of the chunk, and bytes the earlier short BFile::Read
did not fill are uninitialized; either way the int32 value read is not
determined. -/
def bufU32 (buf : List Nat) (pos : Nat) : Option Nat :=
  match (buf.drop pos).take 4 with
  | [a, b, c, d] => some (be32 a b c d)
  | _ => none

/-- UTF-8 encoding of one Latin-1 byte (the code point equals the byte). -/
def encIso1 (b : Nat) : List Nat :=
  if b < 128 then [b] else [192 + b / 64, 128 + b % 64]

/-- Full ISO-8859-1 to UTF-8 conversion of a byte sequence (the conversion
the spec describes, with no output-buffer limit). -/
def iso1ToUtf8 : List Nat → List Nat
  | [] => []
  | b :: r => encIso1 b ++ iso1ToUtf8 r

/-- Modelled from the spec: convert_to_utf8 with B_ISO1_CONVERSION is a
platform service and not part of this repository. The spec describes it as
Latin-1 to UTF-8 conversion; the call site at lines 216-221 passes a fixed
1024-byte output buffer, so conversion stops when the next encoded
character no longer fits. Returns (source bytes consumed, output bytes
written), the values the call stores back into strLen and outLen. -/
def convIso1 : Nat → List Nat → Nat × List Nat
  | _, [] => (0, [])
  | cap, b :: r =>
    if (encIso1 b).length ≤ cap then
      ((convIso1 (cap - (encIso1 b).length) r).1 + 1,
        encIso1 b ++ (convIso1 (cap - (encIso1 b).length) r).2)
    else (0, [])

/-- The C string a BString copy or SetString reads from a char pointer: the
bytes up to the first null byte. When the determinate region holds no null
byte the scan runs into uninitialized or out-of-bounds memory and the
resulting string is not determined: none. -/
def cstr (l : List Nat) : Option (List Nat) :=
  if l.contains 0 then some (l.takeWhile (fun b => b != 0)) else none

/-- Lines 216-228: convert the entry payload sv with a 1024-byte output
buffer, then keep the converted text when outLen > strLen and the raw bytes
otherwise; either choice is then read as a C string by SetString. A
conversion that fills the output buffer leaves platform-dependent
truncation, so that case is not determined. -/
def pickText (sv : List Nat) : Option (List Nat) :=
  if (convIso1 1024 sv).1 < sv.length then none
  else if sv.length < (convIso1 1024 sv).2.length then cstr (convIso1 1024 sv).2
  else cstr sv

/-- Modelled from the spec: ComputeFingerprint is inherited from the
external HashMapCatalog superclass, which is not part of this repository;
the spec only requires an unsigned 32-bit value derived deterministically
from the decoded entry set. -/
def ComputeFingerprint (es : List (Nat × List Nat)) : Nat :=
  (es.foldl (fun h e => h * 31 + e.1 + e.2.foldl (fun a b => a * 33 + b) 7) 5381) % 4294967296

/-- The STRS sub-loop, lines 196-229: while the BMemoryIO position is below
chunkSize, read a big-endian id and length, round the length up to a
multiple of four, read that many payload bytes into a stack array, drop the
first two bytes when the byte at offset 1 is zero (menu marker), convert
and publish. buf is the determinate prefix of the chunk buffer, size is
chunkSize. A negative strLen declares a negative-size stack array; a
rounded length below 2 puts the marker test strBase[1] out of bounds; both
leave the execution undetermined. -/
def strsLoop : Nat → List Nat → Nat → Nat → CatalogData → Option LRes
  | 0, _, _, _, _ => none
  | fuel + 1, buf, size, pos, cat =>
    if size ≤ pos then some (LRes.fin cat)
    else
      match bufU32 buf pos, bufU32 buf (pos + 4) with
      | some strID, some rawLen =>
        if 2147483648 ≤ rawLen then some LRes.indet
        else
          let al := align4 rawLen
          if al < 2 then some LRes.indet
          else if buf.length < pos + 8 + al then some LRes.indet
          else
            let sv0 := (buf.drop (pos + 8)).take al
            match pickText (if sv0.get? 1 = some 0 then sv0.drop 2 else sv0) with
            | none => some LRes.indet
            | some t =>
              strsLoop fuel buf size (pos + 8 + al)
                { cat with entries := cat.entries ++ [(strID, t)] }
      | _, _ => some LRes.indet

/-- The top-level chunk loop, lines 169-239: while dataSize > 0, read a tag
and a size, round the size up to even, read that many payload bytes,
dispatch on the tag, and subtract chunkSize + 8 from dataSize. A negative
chunkSize makes the stack-or-heap allocation fail, so BFile::Read gets a
null buffer and a huge length and transfers nothing; the tags that would
then read the buffer are undetermined, the others simply continue. -/
def chunkLoop : Nat → ByteStream → Int → CatalogData → Option LRes
  | 0, _, _, _ => none
  | fuel + 1, s, dataSize, cat =>
    if dataSize ≤ 0 then some (LRes.fin cat)
    else
      match readU32 s with
      | none => some LRes.indet
      | some (chunkID, s1) =>
        match readU32 s1 with
        | none => some LRes.indet
        | some (rawSize, s2) =>
          let chunkSize : Int :=
            if (toInt32 rawSize) % 2 = 1 then toInt32 rawSize + 1 else toInt32 rawSize
          if chunkSize < 0 then
            if chunkID = tagFVER ∨ chunkID = tagLANG ∨ chunkID = tagSTRS then some LRes.indet
            else chunkLoop fuel s2 (dataSize - (chunkSize + 8)) cat
          else
            let pr := readBytes s2 chunkSize.toNat
            if chunkID = tagFVER then
              match cstr pr.1 with
              | none => some LRes.indet
              | some t =>
                chunkLoop fuel pr.2 (dataSize - (chunkSize + 8)) { cat with fSignature := t }
            else if chunkID = tagLANG then
              match cstr pr.1 with
              | none => some LRes.indet
              | some t =>
                chunkLoop fuel pr.2 (dataSize - (chunkSize + 8)) { cat with fLanguageName := t }
            else if chunkID = tagSTRS then
              match strsLoop fuel pr.1 chunkSize.toNat 0 cat with
              | none => none
              | some LRes.indet => some LRes.indet
              | some (LRes.fin cat2) =>
                chunkLoop fuel pr.2 (dataSize - (chunkSize + 8)) cat2
            else chunkLoop fuel pr.2 (dataSize - (chunkSize + 8)) cat

/-- AmigaCatalog::ReadFromFile, lines 143-244, after the file was opened:
check FORM, read the declared size into an int32, check CTLG, run the chunk
loop over dataSize - 4, then set fPath and fFingerprint and return B_OK.
The read results are never length-checked by the code. -/
def readCatalog (path : String) (input : List Nat) (c0 : CatalogData) (fuel : Nat) : Option DOut :=
  match readU32 ⟨input, 0⟩ with
  | none => some DOut.indet
  | some (t1, s1) =>
    if t1 = tagFORM then
      match readU32 s1 with
      | none => some DOut.indet
      | some (rawSize, s2) =>
        match readU32 s2 with
        | none => some DOut.indet
        | some (t2, s3) =>
          if t2 = tagCTLG then
            match chunkLoop fuel s3 (toInt32 rawSize - 4) c0 with
            | none => none
            | some LRes.indet => some DOut.indet
            | some (LRes.fin c) =>
              some (DOut.done Status.ok
                { c with fPath := path, fFingerprint := ComputeFingerprint c.entries })
          else some (DOut.done Status.badData c0)
    else some (DOut.done Status.badData c0)

/-- The relative catalog name built at lines 84-87:
Catalogs/<language>/<signature>.catalog. -/
def catalogName (lang sig : String) : String :=
  "Catalogs/" ++ lang ++ "/" ++ sig ++ ".catalog"

/-- One candidate path: a root directory joined with the catalog name. -/
def candPath (dir lang sig : String) : String := dir ++ "/" ++ catalogName lang sig

/-- The three candidate paths probed by the constructor, in order: the
directory of the running image, the user settings directory, the system
settings directory. -/
def candidatePaths (appDir userEtc sysEtc lang sig : String) : List String :=
  [candPath appDir lang sig, candPath userEtc lang sig, candPath sysEtc lang sig]

/-- ReadFromFile including the BFile open at lines 149-151: a path that
does not open returns the open status and leaves the object untouched;
otherwise the contents are decoded. The file system is a map from paths to
contents. -/
def ReadFromFile (fs : String → Option (List Nat)) (path : String)
    (c : CatalogData) (fuel : Nat) : Option DOut :=
  match fs path with
  | none => some (DOut.done Status.entryNotFound c)
  | some bytes => readCatalog path bytes c fuel

/-- The locator part of the constructor, lines 83-119: try the app-local
candidate; while the status is not B_OK and the next settings directory
can be resolved (the find_directory guards), try the next candidate on the
same object; fInitCheck becomes the final status. -/
def amigaInit (fs : String → Option (List Nat)) (appDir userEtc sysEtc : String)
    (userEtcOk sysEtcOk : Bool) (lang sig : String) (c0 : CatalogData) (fuel : Nat) : Option DOut :=
  match ReadFromFile fs (candPath appDir lang sig) c0 fuel with
  | none => none
  | some DOut.indet => some DOut.indet
  | some (DOut.done st1 c1) =>
    if st1 = Status.ok then some (DOut.done st1 c1)
    else
      if userEtcOk then
        match ReadFromFile fs (candPath userEtc lang sig) c1 fuel with
        | none => none
        | some DOut.indet => some DOut.indet
        | some (DOut.done st2 c2) =>
          if st2 = Status.ok then some (DOut.done st2 c2)
          else
            if sysEtcOk then ReadFromFile fs (candPath sysEtc lang sig) c2 fuel
            else some (DOut.done st2 c2)
      else
        if sysEtcOk then ReadFromFile fs (candPath sysEtc lang sig) c1 fuel
        else some (DOut.done st1 c1)

/-- AmigaCatalog::WriteToFile, lines 247-251: return B_NOT_SUPPORTED and
touch nothing. The object and the file system are passed through so the
absence of mutation is expressible. -/
def WriteToFile (c : CatalogData) (_path : String) (fs : String → Option (List Nat)) :
    Status × CatalogData × (String → Option (List Nat)) :=
  (Status.notSupported, c, fs)

/-- The decode path argument used by the concrete evaluations below. -/
def pathP : String := "p"

/-- The state an empty successful decode leaves behind, starting from a
fresh object: only fPath and fFingerprint are set. -/
def cDone (p : String) : CatalogData := ⟨[], [], [], p, ComputeFingerprint []⟩

/-- FORM, declared size 20, CTLG, then a CSET chunk declaring 8 payload
bytes of which none are present: the declared total size exceeds the
remaining 12 bytes and the declared chunk size exceeds the remaining 0
bytes. -/
def exC1 : List Nat :=
  [70, 79, 82, 77, 0, 0, 0, 20, 67, 84, 76, 71, 67, 83, 69, 84, 0, 0, 0, 8]

/-- FORM, declared size 12, CTLG, then a CSET chunk with declared size
0xFFFFFFF8, which an int32 reads as -8: the loop budget never decreases. -/
def advC2 : List Nat :=
  [70, 79, 82, 77, 0, 0, 0, 12, 67, 84, 76, 71, 67, 83, 69, 84, 255, 255, 255, 248]

/-- FORM, declared size 10, CTLG, then an empty CSET chunk: the budget is 6
and one iteration subtracts 8, driving it to -2. -/
def exC3 : List Nat :=
  [70, 79, 82, 77, 0, 0, 0, 10, 67, 84, 76, 71, 67, 83, 69, 84, 0, 0, 0, 0]

/-- A header whose first tag is XORM, not FORM. -/
def ex4a : List Nat := [88, 79, 82, 77]

/-- FORM, declared size 4, then form type XTLG, not CTLG. -/
def ex4b : List Nat := [70, 79, 82, 77, 0, 0, 0, 4, 88, 84, 76, 71]

/-- FORM, size 24, CTLG, one STRS chunk of 12 bytes: id 7, declared length
4, payload 41 00 42 43 - the menu-marker example of the spec, which has no
null byte after the dropped marker. -/
def exC5 : List Nat :=
  [70, 79, 82, 77, 0, 0, 0, 24, 67, 84, 76, 71, 83, 84, 82, 83, 0, 0, 0, 12,
   0, 0, 0, 7, 0, 0, 0, 4, 65, 0, 66, 67]

/-- The same STRS entry with payload 41 00 42 00: a marker followed by a
null-terminated text. -/
def exC5g : List Nat :=
  [70, 79, 82, 77, 0, 0, 0, 24, 67, 84, 76, 71, 83, 84, 82, 83, 0, 0, 0, 12,
   0, 0, 0, 7, 0, 0, 0, 4, 65, 0, 66, 0]

/-- The STRS chunk payload of exC5g on its own: entry id 7, declared
length 4, payload 41 00 42 00. -/
def bufC5 : List Nat := [0, 0, 0, 7, 0, 0, 0, 4, 65, 0, 66, 0]

/-- FORM, size 20, CTLG, one STRS chunk of 8 bytes holding a single entry
header: id 5, declared length 0, whose rounded length is 0. -/
def exC10 : List Nat :=
  [70, 79, 82, 77, 0, 0, 0, 20, 67, 84, 76, 71, 83, 84, 82, 83, 0, 0, 0, 8,
   0, 0, 0, 5, 0, 0, 0, 0]

/-- FORM, declared size 12, CTLG, one empty CSET chunk: a well-formed
catalog stream with no strings, which decodes successfully. -/
def exGood : List Nat :=
  [70, 79, 82, 77, 0, 0, 0, 12, 67, 84, 76, 71, 67, 83, 69, 84, 0, 0, 0, 0]

/-- The first candidate path of the witness file system. -/
def pathApp : String := "app/Catalogs/L/S.catalog"

/-- The second candidate path of the witness file system. -/
def pathUe : String := "ue/Catalogs/L/S.catalog"

/-- A file system whose app-local candidate holds a malformed stream and
whose user-settings candidate holds a well-formed one. -/
def fs1 : String → Option (List Nat) :=
  fun p => if p = pathApp then some ex4a else if p = pathUe then some exGood else none

/-- Helper: the only statuses a decode can produce are B_OK (from the
normal return at line 243) and B_BAD_DATA (from the two header checks at
lines 157-158 and 164-165); any non-OK status leaves the object exactly as
it was. -/
theorem readCatalog_status (path : String) (input : List Nat) (c0 : CatalogData)
    (fuel : Nat) (st : Status) (c1 : CatalogData)
    (h : readCatalog path input c0 fuel = some (DOut.done st c1)) :
    st = Status.ok ∨ (st = Status.badData ∧ c1 = c0) := by
  unfold readCatalog at h
  split at h
  · simp at h
  · split at h
    · split at h
      · simp at h
      · split at h
        · simp at h
        · split at h
          · split at h
            · simp at h
            · simp at h
            · simp only [Option.some.injEq, DOut.done.injEq] at h
              exact Or.inl h.1.symm
          · simp only [Option.some.injEq, DOut.done.injEq] at h
            exact Or.inr ⟨h.1.symm, h.2.symm⟩
    · simp only [Option.some.injEq, DOut.done.injEq] at h
      exact Or.inr ⟨h.1.symm, h.2.symm⟩

/-- C1 counterexample: in exC1 the declared total size 20 exceeds the 12
bytes remaining after the size field, and the declared padded chunk size 8
exceeds the 0 remaining bytes, yet decode returns B_OK with a record: no
Truncated failure occurs. -/
theorem c1_truncated_counterexample :
    readCatalog pathP exC1 cInit0 5 = some (DOut.done Status.ok (cDone pathP)) := rfl

/-- C1 amended: decode performs no truncation checking at all; every
determinate decode ends in B_OK or B_BAD_DATA, never in a Truncated
status, and a stream shorter than its declared sizes can still decode
successfully. -/
theorem c1_no_truncated_status (path : String) (input : List Nat) (c0 : CatalogData)
    (fuel : Nat) (st : Status) (c1 : CatalogData)
    (h : readCatalog path input c0 fuel = some (DOut.done st c1)) :
    st = Status.ok ∨ st = Status.badData := by
  rcases readCatalog_status path input c0 fuel st c1 h with h1 | ⟨h1, _⟩
  · exact Or.inl h1
  · exact Or.inr h1

/-- C1 witness: the amended theorem applied to the truncated stream exC1,
whose decode returns B_OK. -/
theorem c1_no_truncated_status_witness :
    readCatalog pathP exC1 cInit0 5 = some (DOut.done Status.ok (cDone pathP)) ∧
    (Status.ok = Status.ok ∨ Status.ok = Status.badData) :=
  ⟨rfl, c1_no_truncated_status pathP exC1 cInit0 5 Status.ok (cDone pathP) rfl⟩

/-- C7: on every determinate decode attempt that returns an error, the
object (entries included) is exactly as it was before the attempt: the two
error returns of ReadFromFile happen before the chunk loop runs, hence
before any SetString. -/
theorem c7_error_atomicity (path : String) (input : List Nat) (c0 : CatalogData)
    (fuel : Nat) (st : Status) (c1 : CatalogData)
    (h : readCatalog path input c0 fuel = some (DOut.done st c1))
    (hst : st ≠ Status.ok) : c1 = c0 := by
  rcases readCatalog_status path input c0 fuel st c1 h with h1 | ⟨_, h2⟩
  · exact absurd h1 hst
  · exact h2

/-- C7 witness: a failing decode of a four-zero-byte stream leaves the
fresh object unchanged. -/
theorem c7_error_atomicity_witness :
    readCatalog pathP [0, 0, 0, 0] cInit0 5 = some (DOut.done Status.badData cInit0) ∧
    Status.badData ≠ Status.ok ∧
    cInit0 = cInit0 :=
  ⟨rfl, by decide, c7_error_atomicity pathP [0, 0, 0, 0] cInit0 5 Status.badData cInit0 rfl (by decide)⟩

/-- C3 counterexample: in exC3 the budget starts at 6 and the single empty
chunk subtracts 8, driving it to -2; the loop exits and decode returns
B_OK, not MalformedContainer. -/
theorem c3_negative_budget_counterexample :
    readCatalog pathP exC3 cInit0 5 = some (DOut.done Status.ok (cDone pathP)) := rfl

/-- C3 amended: the chunk loop while (dataSize > 0) exits as soon as the
remaining budget is zero OR negative, and simply finishes the decode
successfully in either case; a strictly negative budget is not detected
and raises no MalformedContainer. -/
theorem c3_loop_exit (fuel : Nat) (s : ByteStream) (ds : Int) (cat : CatalogData)
    (h : ds ≤ 0) : chunkLoop (fuel + 1) s ds cat = some (LRes.fin cat) := by
  simp [chunkLoop, h]

/-- C3 witness: the loop-exit theorem applied at the strictly negative
budget -2. -/
theorem c3_loop_exit_witness :
    ((-2 : Int) ≤ 0) ∧ chunkLoop 1 ⟨[], 0⟩ (-2) cInit0 = some (LRes.fin cInit0) :=
  ⟨by decide, c3_loop_exit 0 ⟨[], 0⟩ (-2) cInit0 (by decide)⟩

/-- C4 counterexample: a form type other than CTLG (stream ex4b) fails with
B_BAD_DATA, the same value the FORM check produces, not with a distinct
UnsupportedFormType value. -/
theorem c4_error_values_counterexample :
    readCatalog pathP ex4b cInit0 5 = some (DOut.done Status.badData cInit0) := rfl

/-- C4 amended: every input whose determinately read first tag is not FORM
fails with B_BAD_DATA, and every input with a FORM header whose
determinately read form type is not CTLG fails with the same B_BAD_DATA;
the code does not distinguish MalformedContainer from UnsupportedFormType. -/
theorem c4_same_bad_data :
    (∀ path input c0 fuel t1 s1,
      readU32 ⟨input, 0⟩ = some (t1, s1) → t1 ≠ tagFORM →
      readCatalog path input c0 fuel = some (DOut.done Status.badData c0)) ∧
    (∀ path input c0 fuel s1 sz s2 t2 s3,
      readU32 ⟨input, 0⟩ = some (tagFORM, s1) →
      readU32 s1 = some (sz, s2) →
      readU32 s2 = some (t2, s3) →
      t2 ≠ tagCTLG →
      readCatalog path input c0 fuel = some (DOut.done Status.badData c0)) := by
  constructor
  · intro path input c0 fuel t1 s1 h1 h2
    unfold readCatalog
    rw [h1]
    simp [h2]
  · intro path input c0 fuel s1 sz s2 t2 s3 h1 h2 h3 h4
    unfold readCatalog
    rw [h1]
    simp [h2, h3, h4]

/-- C4 witness: the two conjuncts applied at ex4a (first tag XORM) and
ex4b (form type XTLG), both yielding the same B_BAD_DATA. -/
theorem c4_same_bad_data_witness :
    readU32 ⟨ex4a, 0⟩ = some (be32 88 79 82 77, ⟨ex4a, 4⟩) ∧
    be32 88 79 82 77 ≠ tagFORM ∧
    readCatalog pathP ex4a cInit0 5 = some (DOut.done Status.badData cInit0) ∧
    readU32 ⟨ex4b, 0⟩ = some (tagFORM, ⟨ex4b, 4⟩) ∧
    readU32 ⟨ex4b, 4⟩ = some (4, ⟨ex4b, 8⟩) ∧
    readU32 ⟨ex4b, 8⟩ = some (be32 88 84 76 71, ⟨ex4b, 12⟩) ∧
    be32 88 84 76 71 ≠ tagCTLG ∧
    readCatalog pathP ex4b cInit0 5 = some (DOut.done Status.badData cInit0) :=
  ⟨rfl, by decide,
    c4_same_bad_data.1 pathP ex4a cInit0 5 (be32 88 79 82 77) ⟨ex4a, 4⟩ rfl (by decide),
    rfl, rfl, rfl, by decide,
    c4_same_bad_data.2 pathP ex4b cInit0 5 ⟨ex4b, 4⟩ 4 ⟨ex4b, 8⟩ (be32 88 84 76 71) ⟨ex4b, 12⟩
      rfl rfl rfl (by decide)⟩

/-- C5 counterexample: on the spec example payload 41 00 42 43 the marker
bytes are dropped, but the remaining bytes 42 43 hold no null terminator,
so the C string SetString receives runs past the stack buffer: the decoded
text is not determined, and in particular the decode does not return a
record with the text BC. -/
theorem c5_menu_marker_counterexample :
    readCatalog pathP exC5 cInit0 5 = some DOut.indet := rfl

/-- C5 amended: for every STRS entry whose byte at payload offset 1 is
zero, the first two payload bytes are dropped before decoding (the text
handed on is taken from the payload with its first two bytes removed);
concretely, on the null-terminated payload 41 00 42 00 the entry decodes
to the single byte 42 (the text B), not to 41 00 42 00. -/
theorem c5_menu_marker_drop :
    (∀ fuel buf size pos cat strID rawLen,
      bufU32 buf pos = some strID →
      bufU32 buf (pos + 4) = some rawLen →
      rawLen < 2147483648 →
      2 ≤ align4 rawLen →
      pos + 8 + align4 rawLen ≤ buf.length →
      ¬ size ≤ pos →
      ((buf.drop (pos + 8)).take (align4 rawLen)).get? 1 = some 0 →
      strsLoop (fuel + 1) buf size pos cat =
        match pickText (((buf.drop (pos + 8)).take (align4 rawLen)).drop 2) with
        | none => some LRes.indet
        | some t =>
          strsLoop fuel buf size (pos + 8 + align4 rawLen)
            { cat with entries := cat.entries ++ [(strID, t)] }) ∧
    readCatalog pathP exC5g cInit0 5 =
      some (DOut.done Status.ok ⟨[], [], [(7, [66])], pathP, ComputeFingerprint [(7, [66])]⟩) := by
  refine ⟨?_, rfl⟩
  intro fuel buf size pos cat strID rawLen h1 h2 h3 h4 h5 h6 h7
  simp only [strsLoop, h1, h2, h7, if_neg h6,
    if_neg (by omega : ¬ 2147483648 ≤ rawLen),
    if_neg (by omega : ¬ align4 rawLen < 2),
    if_neg (by omega : ¬ buf.length < pos + 8 + align4 rawLen),
    if_true]

/-- C5 witness: the universal drop conjunct applied to the concrete STRS
payload bufC5 (id 7, length 4, bytes 41 00 42 00). -/
theorem c5_menu_marker_drop_witness :
    bufU32 bufC5 0 = some 7 ∧
    bufU32 bufC5 (0 + 4) = some 4 ∧
    (4 : Nat) < 2147483648 ∧
    2 ≤ align4 4 ∧
    0 + 8 + align4 4 ≤ bufC5.length ∧
    ¬ (12 : Nat) ≤ 0 ∧
    ((bufC5.drop (0 + 8)).take (align4 4)).get? 1 = some 0 ∧
    strsLoop (3 + 1) bufC5 12 0 cInit0 =
      (match pickText (((bufC5.drop (0 + 8)).take (align4 4)).drop 2) with
        | none => some LRes.indet
        | some t =>
          strsLoop 3 bufC5 12 (0 + 8 + align4 4)
            { cInit0 with entries := cInit0.entries ++ [(7, t)] }) :=
  ⟨rfl, rfl, by decide, by decide, by decide, by decide, rfl,
    c5_menu_marker_drop.1 3 bufC5 12 0 cInit0 7 4 rfl rfl (by decide) (by decide)
      (by decide) (by decide) rfl⟩

/-- C9: WriteToFile returns B_NOT_SUPPORTED for every record and every
path, and leaves the signature, language name, entries, fingerprint, path
and the whole file system unchanged. -/
theorem c9_write_unsupported (c : CatalogData) (p : String) (fs : String → Option (List Nat)) :
    (WriteToFile c p fs).1 = Status.notSupported ∧
    (WriteToFile c p fs).2.1 = c ∧
    (WriteToFile c p fs).2.2 = fs ∧
    (WriteToFile c p fs).2.1.fSignature = c.fSignature ∧
    (WriteToFile c p fs).2.1.fLanguageName = c.fLanguageName ∧
    (WriteToFile c p fs).2.1.entries = c.entries ∧
    (WriteToFile c p fs).2.1.fFingerprint = c.fFingerprint ∧
    (WriteToFile c p fs).2.1.fPath = c.fPath :=
  ⟨rfl, rfl, rfl, rfl, rfl, rfl, rfl, rfl⟩

/-- Helper: one iteration of the chunk loop on advC2 consumes the 8 header
bytes of the chunk declaring size 0xFFFFFFF8 (int32 -8, padded -8), and
subtracts chunkSize + 8 = 0 from the budget: the budget stays at 8. -/
theorem chunkLoop_advC2_step (fuel : Nat) :
    chunkLoop (fuel + 1) ⟨advC2, 12⟩ 8 cInit0 = chunkLoop fuel ⟨advC2, 20⟩ 8 cInit0 := rfl

/-- Helper: at the end of advC2 the loop budget is still 8, so the loop
body runs again and reads the next chunk header from an exhausted stream
into uninitialized int32 variables: the execution is undetermined. -/
theorem chunkLoop_advC2_stuck (fuel : Nat) :
    chunkLoop (fuel + 1) ⟨advC2, 20⟩ 8 cInit0 = some LRes.indet := rfl

/-- C2: the chunk loop is not guarded by a monotonically decreasing,
bounds-checked budget. The chunk size field 0xFFFFFFF8 of advC2 is read
into an int32 as -8, a negative read length; the iteration leaves the
budget unchanged at 8, and the decode of advC2 never produces a result:
it runs off the end of the stream into reads of uninitialized variables. -/
theorem c2_unguarded_loop :
    toInt32 (be32 255 255 255 248) = -8 ∧
    (∀ fuel : Nat, chunkLoop (fuel + 1) ⟨advC2, 12⟩ 8 cInit0 = chunkLoop fuel ⟨advC2, 20⟩ 8 cInit0) ∧
    (∀ fuel : Nat, readCatalog pathP advC2 cInit0 (fuel + 2) = some DOut.indet) := by
  refine ⟨by decide, chunkLoop_advC2_step, ?_⟩
  intro fuel
  have h1 : readCatalog pathP advC2 cInit0 (fuel + 2) =
      (match chunkLoop (fuel + 2) ⟨advC2, 12⟩ 8 cInit0 with
       | none => none
       | some LRes.indet => some DOut.indet
       | some (LRes.fin c) =>
         some (DOut.done Status.ok
           { c with fPath := pathP, fFingerprint := ComputeFingerprint c.entries })) := rfl
  rw [h1, chunkLoop_advC2_step (fuel + 1), chunkLoop_advC2_stuck fuel]

/-- Helper: when the full UTF-8 image of the source fits in the output
buffer, the capacity-limited conversion consumes the whole source and
writes exactly that image. -/
theorem convIso1_total (l : List Nat) : ∀ cap : Nat, (iso1ToUtf8 l).length ≤ cap →
    convIso1 cap l = (l.length, iso1ToUtf8 l) := by
  induction l with
  | nil => intro cap _; rfl
  | cons b r ih =>
    intro cap h
    simp only [iso1ToUtf8, List.length_append] at h
    have h1 : (encIso1 b).length ≤ cap := by omega
    have h2 : (iso1ToUtf8 r).length ≤ cap - (encIso1 b).length := by omega
    simp only [convIso1, if_pos h1, ih _ h2, iso1ToUtf8, List.length_cons]

/-- C6: for every string entry payload whose converted form fits the
1024-byte output buffer (the only case the platform conversion contract
determines), the entry text handed to SetString is the C string of the
converted bytes exactly when the converted byte length is strictly larger
than the original length, and the C string of the raw original bytes
otherwise. -/
theorem c6_conversion_choice (sv : List Nat) (h : (iso1ToUtf8 sv).length ≤ 1024) :
    pickText sv =
      if sv.length < (iso1ToUtf8 sv).length then cstr (iso1ToUtf8 sv) else cstr sv := by
  unfold pickText
  rw [convIso1_total sv 1024 h]
  simp

/-- C6 witness: the conversion-choice theorem applied to the payload
e9 00 (a Latin-1 letter plus terminator), whose UTF-8 form is longer, so
the converted text is kept. -/
theorem c6_conversion_choice_witness :
    (iso1ToUtf8 [233, 0]).length ≤ 1024 ∧
    pickText [233, 0] =
      (if ([233, 0] : List Nat).length < (iso1ToUtf8 [233, 0]).length
        then cstr (iso1ToUtf8 [233, 0]) else cstr [233, 0]) :=
  ⟨by decide, c6_conversion_choice [233, 0] (by decide)⟩

/-- C10: the menu-marker test strBase[1] is executed for every STRS entry,
so it stays inside the stack buffer of rounded size align4 declared_len
exactly when that rounded size is at least 2: every nonzero declared
length gives a rounded length of at least 4, while a declared length of 0
gives a rounded length of 0 and an out-of-bounds access, exhibited by the
undetermined decode of exC10. -/
theorem c10_marker_bounds :
    (∀ n : Nat, 0 < n → 2 ≤ align4 n) ∧
    align4 0 = 0 ∧
    readCatalog pathP exC10 cInit0 5 = some DOut.indet := by
  refine ⟨?_, rfl, rfl⟩
  intro n hn
  unfold align4
  split <;> omega

/-- C10 witness: the bound applied at declared length 4. -/
theorem c10_marker_bounds_witness : (0 : Nat) < 4 ∧ 2 ≤ align4 4 :=
  ⟨by decide, c10_marker_bounds.1 4 (by decide)⟩

/-- C8: the constructor probes the three candidate paths
<dir>/Catalogs/<language>/<signature>.catalog in order (app directory,
user settings, system settings); it stops at the first candidate whose
ReadFromFile returns B_OK; a later well-formed candidate yields overall
success regardless of earlier failures; and when the first two attempts
fail the overall result is exactly that of the last attempted candidate. -/
theorem c8_locator_fallback :
    (candidatePaths "appd" "ued" "sed" "Deutsch" "MyApp" =
      ["appd/Catalogs/Deutsch/MyApp.catalog",
       "ued/Catalogs/Deutsch/MyApp.catalog",
       "sed/Catalogs/Deutsch/MyApp.catalog"]) ∧
    (∀ fs a u s uo so l g c0 fuel c1,
      ReadFromFile fs (candPath a l g) c0 fuel = some (DOut.done Status.ok c1) →
      amigaInit fs a u s uo so l g c0 fuel = some (DOut.done Status.ok c1)) ∧
    (∀ fs a u s so l g c0 fuel st1 c1 c2,
      ReadFromFile fs (candPath a l g) c0 fuel = some (DOut.done st1 c1) →
      st1 ≠ Status.ok →
      ReadFromFile fs (candPath u l g) c1 fuel = some (DOut.done Status.ok c2) →
      amigaInit fs a u s true so l g c0 fuel = some (DOut.done Status.ok c2)) ∧
    (∀ fs a u s l g c0 fuel st1 c1 st2 c2,
      ReadFromFile fs (candPath a l g) c0 fuel = some (DOut.done st1 c1) →
      st1 ≠ Status.ok →
      ReadFromFile fs (candPath u l g) c1 fuel = some (DOut.done st2 c2) →
      st2 ≠ Status.ok →
      amigaInit fs a u s true true l g c0 fuel = ReadFromFile fs (candPath s l g) c2 fuel) := by
  refine ⟨rfl, ?_, ?_, ?_⟩
  · intro fs a u s uo so l g c0 fuel c1 h1
    simp [amigaInit, h1]
  · intro fs a u s so l g c0 fuel st1 c1 c2 h1 h2 h3
    simp [amigaInit, h1, h2, h3]
  · intro fs a u s l g c0 fuel st1 c1 st2 c2 h1 h2 h3 h4
    simp [amigaInit, h1, h2, h3, h4]

/-- C8 witness: on the file system fs1 the app-local candidate is
malformed (B_BAD_DATA) and the user-settings candidate decodes, so the
fallback conjunct yields overall success with the record read from the
second candidate. -/
theorem c8_locator_fallback_witness :
    ReadFromFile fs1 (candPath "app" "L" "S") cInit0 5 = some (DOut.done Status.badData cInit0) ∧
    Status.badData ≠ Status.ok ∧
    ReadFromFile fs1 (candPath "ue" "L" "S") cInit0 5 = some (DOut.done Status.ok (cDone pathUe)) ∧
    amigaInit fs1 "app" "ue" "se" true true "L" "S" cInit0 5 =
      some (DOut.done Status.ok (cDone pathUe)) :=
  ⟨rfl, by decide, rfl,
    c8_locator_fallback.2.2.1 fs1 "app" "ue" "se" true "L" "S" cInit0 5
      Status.badData cInit0 (cDone pathUe) rfl (by decide) rfl⟩
